import Mathlib

/-!
Shallow embedding of `src/NumericDerivatives/stencils.py` (PyNumericBrad).

The module exposes two public entry points, `D1_5` and `D2_5`, computing
first and second derivatives of a uniformly sampled 1-D or 2-D numpy array
using five-point stencils.  Real arithmetic is embedded as `ℚ` (the spec's
claims are about exact real arithmetic); a numpy `ndarray` of rank 1 or 2 is
embedded as `NDArray`; every `raise` statement in the Python source becomes
an `Except.error` carrying the corresponding error kind, so a call that
raises returns no array at all.

Faithfulness notes, keyed to the source:
* `raise Warning(...)` (lines 166 and 348) is an ordinary Python `raise`:
  it propagates as an exception and aborts the call.  It is therefore
  embedded as `Except.error .lowSampleWarning`, not as a non-fatal note.
* The axis `if/elif/else` chain (lines 148-155 and 330-337) is transcribed
  branch for branch in `normAxis`, including the fall-through of `axis = 1`
  with 2-D data into the final `else`.
* `D1_5` and `D2_5` are textually identical in the source except for the
  stencil kernels applied; `stencilDriver` holds that shared body once and
  the two entry points instantiate it, definitionally equal to direct
  transcriptions.
* The output array is initialised to `-100.0 + 0.0*data` and then every
  entry is overwritten (indices 0, 1, n-2, n-1 by the edge kernels, indices
  2..n-3 by the loop; validation guarantees n ≥ 5, hence total coverage and
  no index clash), so the row result is expressed directly as the map of
  the position-dispatched kernel over all indices.
* numpy slicing `data[0:5]`, `data[-5:]`, `data[i-2:i+3]` becomes
  `take 5`, `drop (n-5)`, `(drop (i-2)).take 5`; element access inside a
  kernel becomes `List.getD _ _ 0` (the windows always have length 5 when
  the kernels are reached).
* An `ndarray` is rectangular, so the column count of a 2-D array
  (`np.shape(data)[1]`) is the length of its first row.
-/

namespace PyNumericBrad

/-- Error kinds raised by the source: `ValueError` for a bad axis
(spec: InvalidAxisKind), `Exception` for fewer than 5 points
(spec: InsufficientDataKind), and the `raise Warning` for 5-9 points
(spec calls it LowSampleAdvisory).  The `TypeError` branch for non-ndarray
input and the rank check are unrepresentable here: `NDArray` only contains
genuine rank-1 or rank-2 arrays. -/
inductive DerivError where
  | invalidAxis
  | insufficientData
  | lowSampleWarning
deriving DecidableEq, Repr

/-- A numpy ndarray of rank 1 or 2 with rational entries. -/
inductive NDArray where
  | one : List ℚ → NDArray
  | two : List (List ℚ) → NDArray
deriving DecidableEq, Repr

/-- Decidable equality of call results, so that concrete runs of the
embedded functions can be checked by `decide`. -/
instance {ε α : Type} [DecidableEq ε] [DecidableEq α] : DecidableEq (Except ε α)
  | .ok x, .ok y =>
      if h : x = y then .isTrue (by rw [h])
      else .isFalse (by intro hc; cases hc; exact h rfl)
  | .error e, .error f =>
      if h : e = f then .isTrue (by rw [h])
      else .isFalse (by intro hc; cases hc; exact h rfl)
  | .ok _, .error _ => .isFalse (by intro hc; cases hc)
  | .error _, .ok _ => .isFalse (by intro hc; cases hc)

/-- `len(np.shape(data))`. -/
def NDArray.rank : NDArray → Nat
  | .one _ => 1
  | .two _ => 2

/-- `np.shape(data)[-1]`: the length of the last dimension.  For rank 2 this
is the (common) row length, read off the first row. -/
def NDArray.lastDimLen : NDArray → Nat
  | .one v => v.length
  | .two m => (m.headD []).length

/-- `np.shape(data)` as a list of dimension lengths. -/
def NDArray.shape : NDArray → List Nat
  | .one v => [v.length]
  | .two m => [m.length, (m.headD []).length]

/-- `data.T` on a rectangular rank-2 list-of-rows: entry `(i, j)` of the
result is entry `(j, i)` of the input. -/
def transposeQ (m : List (List ℚ)) : List (List ℚ) :=
  (List.range (m.headD []).length).map (fun i => m.map (fun r => r.getD i 0))

/-- `data.T` lifted to `NDArray` (the source only transposes rank-2 data). -/
def NDArray.transposeND : NDArray → NDArray
  | .one v => .one v
  | .two m => .two (transposeQ m)

/-- Row `j` of an array (for rank 1, the array itself). -/
def NDArray.row (j : Nat) : NDArray → List ℚ
  | .one v => v
  | .two m => m.getD j []

/-- `__D1_Five_Point_Stencil`: first derivative at `p[2]`. -/
def D1_Five_Point_Stencil (p : List ℚ) (h : ℚ) : ℚ :=
  (8 * (p.getD 3 0 - p.getD 1 0) - (p.getD 4 0 - p.getD 0 0)) / (12 * h)

/-- `__D1_Five_Point_Stencil_Assymmetric_F`: first derivative at `p[1]`. -/
def D1_Five_Point_Stencil_Assymmetric_F (p : List ℚ) (h : ℚ) : ℚ :=
  (-10 * p.getD 1 0 + 18 * p.getD 2 0 - 3 * p.getD 0 0 - 6 * p.getD 3 0 + p.getD 4 0) / (12 * h)

/-- `__D1_Five_Point_Stencil_Assymmetric_B`: first derivative at `p[3]`. -/
def D1_Five_Point_Stencil_Assymmetric_B (p : List ℚ) (h : ℚ) : ℚ :=
  (10 * p.getD 3 0 + 3 * p.getD 4 0 - 18 * p.getD 2 0 + 6 * p.getD 1 0 - p.getD 0 0) / (12 * h)

/-- `__D1_Five_Point_Stencil_Forward`: first derivative at `p[0]`. -/
def D1_Five_Point_Stencil_Forward (p : List ℚ) (h : ℚ) : ℚ :=
  (-25 * p.getD 0 0 + 48 * p.getD 1 0 - 36 * p.getD 2 0 + 16 * p.getD 3 0 - 3 * p.getD 4 0) / (12 * h)

/-- `__D1_Five_Point_Stencil_Backward`: first derivative at `p[4]`. -/
def D1_Five_Point_Stencil_Backward (p : List ℚ) (h : ℚ) : ℚ :=
  (25 * p.getD 4 0 - 48 * p.getD 3 0 + 36 * p.getD 2 0 - 16 * p.getD 1 0 + 3 * p.getD 0 0) / (12 * h)

/-- `__D2_Five_Point_Stencil`: second derivative at `p[2]`. -/
def D2_Five_Point_Stencil (p : List ℚ) (h : ℚ) : ℚ :=
  (-30 * p.getD 2 0 + 16 * (p.getD 1 0 + p.getD 3 0) - (p.getD 0 0 + p.getD 4 0)) / (12 * h ^ 2)

/-- `__D2_Five_Point_Stencil_Assymmetric_F`: second derivative at `p[1]`. -/
def D2_Five_Point_Stencil_Assymmetric_F (p : List ℚ) (h : ℚ) : ℚ :=
  (11 * p.getD 0 0 - 20 * p.getD 1 0 + 6 * p.getD 2 0 + 4 * p.getD 3 0 - 1 * p.getD 4 0) / (12 * h ^ 2)

/-- `__D2_Five_Point_Stencil_Assymmetric_B`: second derivative at `p[3]`. -/
def D2_Five_Point_Stencil_Assymmetric_B (p : List ℚ) (h : ℚ) : ℚ :=
  (-1 * p.getD 0 0 + 4 * p.getD 1 0 + 6 * p.getD 2 0 - 20 * p.getD 3 0 + 11 * p.getD 4 0) / (12 * h ^ 2)

/-- `__D2_Five_Point_Stencil_Forward`: second derivative at `p[0]`. -/
def D2_Five_Point_Stencil_Forward (p : List ℚ) (h : ℚ) : ℚ :=
  (35 * p.getD 0 0 - 104 * p.getD 1 0 + 114 * p.getD 2 0 - 56 * p.getD 3 0 + 11 * p.getD 4 0) / (12 * h ^ 2)

/-- `__D2_Five_Point_Stencil_Backward`: second derivative at `p[4]`. -/
def D2_Five_Point_Stencil_Backward (p : List ℚ) (h : ℚ) : ℚ :=
  (11 * p.getD 0 0 - 56 * p.getD 1 0 + 114 * p.getD 2 0 - 104 * p.getD 3 0 + 35 * p.getD 4 0) / (12 * h ^ 2)

/-- The 1-D first-derivative dispatch of `D1_5` (source lines 171-177):
forward kernel at index 0, near-forward at 1, near-backward at n-2,
backward at n-1, centered elsewhere.  The Python code assigns the four edge
entries first and then the loop for 2..n-3; for n ≥ 5 these index sets are
disjoint and cover 0..n-1, so the final array is this per-index dispatch. -/
def D1_row (d : List ℚ) (h : ℚ) : List ℚ :=
  (List.range d.length).map (fun i =>
    if i = 0 then D1_Five_Point_Stencil_Forward (d.take 5) h
    else if i = 1 then D1_Five_Point_Stencil_Assymmetric_F (d.take 5) h
    else if i = d.length - 2 then D1_Five_Point_Stencil_Assymmetric_B (d.drop (d.length - 5)) h
    else if i = d.length - 1 then D1_Five_Point_Stencil_Backward (d.drop (d.length - 5)) h
    else D1_Five_Point_Stencil ((d.drop (i - 2)).take 5) h)

/-- The 1-D second-derivative dispatch of `D2_5` (source lines 353-359). -/
def D2_row (d : List ℚ) (h : ℚ) : List ℚ :=
  (List.range d.length).map (fun i =>
    if i = 0 then D2_Five_Point_Stencil_Forward (d.take 5) h
    else if i = 1 then D2_Five_Point_Stencil_Assymmetric_F (d.take 5) h
    else if i = d.length - 2 then D2_Five_Point_Stencil_Assymmetric_B (d.drop (d.length - 5)) h
    else if i = d.length - 1 then D2_Five_Point_Stencil_Backward (d.drop (d.length - 5)) h
    else D2_Five_Point_Stencil ((d.drop (i - 2)).take 5) h)

/-- The axis `if/elif/else` chain shared by `D1_5` and `D2_5`
(source lines 148-155 / 330-337), transcribed branch for branch:
`axis == -1` is replaced by `len(shape) - 1`; `axis == 1` with rank ≠ 2
raises; `axis == 0` passes; anything else (including `axis == 1` with
rank = 2, which falls through all the guards) raises. -/
def normAxis (rank : Nat) (axis : Int) : Except DerivError Int :=
  if axis = -1 then .ok ((rank : Int) - 1)
  else if axis = 1 ∧ rank ≠ 2 then .error .invalidAxis
  else if axis = 0 then .ok 0
  else .error .invalidAxis

/-- The body shared verbatim by `D1_5` and `D2_5` (source lines 142-191 /
324-373), parameterised by the per-row dispatch: axis normalisation,
transpose for `axis = 0` on rank-2 data, length validation on the last
dimension (hard error below 5 points, raised `Warning` below 10), per-row
stencil application, and the transpose back. -/
def stencilDriver (row : List ℚ → ℚ → List ℚ) (data : NDArray) (step : ℚ)
    (axis : Int) : Except DerivError NDArray :=
  match normAxis data.rank axis with
  | .error e => .error e
  | .ok ax =>
      let d := if data.rank = 2 ∧ ax = 0 then data.transposeND else data
      if d.lastDimLen < 5 then .error .insufficientData
      else if d.lastDimLen < 10 then .error .lowSampleWarning
      else
        let out : NDArray :=
          match d with
          | .one v => .one (row v step)
          | .two m => .two (m.map (fun r => row r step))
        .ok (if data.rank = 2 ∧ ax = 0 then out.transposeND else out)

/-- `D1_5(data, step, axis=-1)`: first derivative (source lines 88-191).
The Python default for `axis` is `-1`. -/
def D1_5 (data : NDArray) (step : ℚ) (axis : Int) : Except DerivError NDArray :=
  stencilDriver D1_row data step axis

/-- `D2_5(data, step, axis=-1)`: second derivative (source lines 270-373).
The Python default for `axis` is `-1`. -/
def D2_5 (data : NDArray) (step : ℚ) (axis : Int) : Except DerivError NDArray :=
  stencilDriver D2_row data step axis

/-! ### Generic list-access lemmas for the stencil windows -/

theorem getD_range_map (f : Nat → ℚ) {n k : Nat} (hk : k < n) :
    ((List.range n).map f).getD k 0 = f k := by
  rw [List.getD_eq_getElem?_getD, List.getElem?_map, List.getElem?_range hk]
  rfl

theorem getD_take5 (l : List ℚ) (j : Nat) (hj : j < 5) :
    (l.take 5).getD j 0 = l.getD j 0 := by
  rw [List.getD_eq_getElem?_getD, List.getElem?_take, if_pos hj, ← List.getD_eq_getElem?_getD]

theorem getD_drop (l : List ℚ) (s j : Nat) :
    (l.drop s).getD j 0 = l.getD (s + j) 0 := by
  rw [List.getD_eq_getElem?_getD, List.getElem?_drop, ← List.getD_eq_getElem?_getD]

/-! ### Uniformly sampled polynomials

`sampleQ A B C n` is the list of values `A + B·k + C·k²` for `k = 0..n-1`.
Sampling `f(x) = a + b·x + c·x²` at the points `x₀ + k·h` yields exactly
this list with `A = a + b·x₀ + c·x₀²`, `B = (b + 2·c·x₀)·h`, `C = c·h²`,
so every uniformly sampled quadratic (and, with `C = 0`, every uniformly
sampled linear function) is of this form. -/

def sampleQ (A B C : ℚ) (n : Nat) : List ℚ :=
  (List.range n).map (fun k : Nat => A + B * (k : ℚ) + C * (k : ℚ) ^ 2)

theorem sampleQ_length (A B C : ℚ) (n : Nat) : (sampleQ A B C n).length = n := by
  unfold sampleQ
  rw [List.length_map, List.length_range]

theorem sampleQ_getD (A B C : ℚ) {n k : Nat} (hk : k < n) :
    (sampleQ A B C n).getD k 0 = A + B * k + C * (k : ℚ) ^ 2 := by
  unfold sampleQ
  exact getD_range_map _ hk

theorem sampleQ_take5 (A B C : ℚ) {n : Nat} (hn : 5 ≤ n) (j : Nat) (hj : j < 5) :
    ((sampleQ A B C n).take 5).getD j 0 = A + B * j + C * (j : ℚ) ^ 2 := by
  rw [getD_take5 _ _ hj, sampleQ_getD _ _ _ (lt_of_lt_of_le hj hn)]

theorem sampleQ_drop (A B C : ℚ) {n : Nat} (s j : Nat) (hsj : s + j < n) :
    ((sampleQ A B C n).drop s).getD j 0
      = A + B * (s + j : Nat) + C * ((s + j : Nat) : ℚ) ^ 2 := by
  rw [getD_drop, sampleQ_getD _ _ _ hsj]

theorem sampleQ_droptake (A B C : ℚ) {n : Nat} (s j : Nat) (hj : j < 5) (hsj : s + j < n) :
    (((sampleQ A B C n).drop s).take 5).getD j 0
      = A + B * (s + j : Nat) + C * ((s + j : Nat) : ℚ) ^ 2 := by
  rw [getD_take5 _ _ hj, getD_drop, sampleQ_getD _ _ _ hsj]

/-- On a uniformly sampled quadratic with at least five samples, every
branch of the first-derivative dispatch returns the exact derivative
`(B + 2·C·k) / h` of `k ↦ A + B·k + C·k²` (divided by `h` because the
sample values carry the step inside `B` and `C`). -/
theorem D1_row_sampleQ (A B C h : ℚ) {n : Nat} (hn : 5 ≤ n) :
    D1_row (sampleQ A B C n) h
      = (List.range n).map (fun k : Nat => (B + 2 * C * (k : ℚ)) * 12 / (12 * h)) := by
  unfold D1_row
  simp only [sampleQ_length]
  refine List.map_congr_left ?_
  intro i hi
  rw [List.mem_range] at hi
  rcases eq_or_ne i 0 with h0 | h0
  · subst h0
    rw [if_pos rfl]
    unfold D1_Five_Point_Stencil_Forward
    rw [sampleQ_take5 A B C hn 0 (by norm_num), sampleQ_take5 A B C hn 1 (by norm_num),
        sampleQ_take5 A B C hn 2 (by norm_num), sampleQ_take5 A B C hn 3 (by norm_num),
        sampleQ_take5 A B C hn 4 (by norm_num)]
    push_cast
    ring
  rcases eq_or_ne i 1 with h1 | h1
  · subst h1
    rw [if_neg h0, if_pos rfl]
    unfold D1_Five_Point_Stencil_Assymmetric_F
    rw [sampleQ_take5 A B C hn 0 (by norm_num), sampleQ_take5 A B C hn 1 (by norm_num),
        sampleQ_take5 A B C hn 2 (by norm_num), sampleQ_take5 A B C hn 3 (by norm_num),
        sampleQ_take5 A B C hn 4 (by norm_num)]
    push_cast
    ring
  rcases eq_or_ne i (n - 2) with h2 | h2
  · subst h2
    rw [if_neg h0, if_neg h1, if_pos rfl]
    unfold D1_Five_Point_Stencil_Assymmetric_B
    rw [sampleQ_drop A B C (n - 5) 0 (by omega), sampleQ_drop A B C (n - 5) 1 (by omega),
        sampleQ_drop A B C (n - 5) 2 (by omega), sampleQ_drop A B C (n - 5) 3 (by omega),
        sampleQ_drop A B C (n - 5) 4 (by omega)]
    have e0 : n - 5 + 0 = n - 5 := by omega
    have e1 : n - 5 + 1 = n - 4 := by omega
    have e2 : n - 5 + 2 = n - 3 := by omega
    have e3 : n - 5 + 3 = n - 2 := by omega
    have e4 : n - 5 + 4 = n - 1 := by omega
    rw [e0, e1, e2, e3, e4,
        Nat.cast_sub (by omega : 5 ≤ n), Nat.cast_sub (by omega : 4 ≤ n),
        Nat.cast_sub (by omega : 3 ≤ n), Nat.cast_sub (by omega : 2 ≤ n),
        Nat.cast_sub (by omega : 1 ≤ n)]
    push_cast
    ring
  rcases eq_or_ne i (n - 1) with h3 | h3
  · subst h3
    rw [if_neg h0, if_neg h1, if_neg h2, if_pos rfl]
    unfold D1_Five_Point_Stencil_Backward
    rw [sampleQ_drop A B C (n - 5) 0 (by omega), sampleQ_drop A B C (n - 5) 1 (by omega),
        sampleQ_drop A B C (n - 5) 2 (by omega), sampleQ_drop A B C (n - 5) 3 (by omega),
        sampleQ_drop A B C (n - 5) 4 (by omega)]
    have e0 : n - 5 + 0 = n - 5 := by omega
    have e1 : n - 5 + 1 = n - 4 := by omega
    have e2 : n - 5 + 2 = n - 3 := by omega
    have e3 : n - 5 + 3 = n - 2 := by omega
    have e4 : n - 5 + 4 = n - 1 := by omega
    rw [e0, e1, e2, e3, e4,
        Nat.cast_sub (by omega : 5 ≤ n), Nat.cast_sub (by omega : 4 ≤ n),
        Nat.cast_sub (by omega : 3 ≤ n), Nat.cast_sub (by omega : 2 ≤ n),
        Nat.cast_sub (by omega : 1 ≤ n)]
    push_cast
    ring
  · rw [if_neg h0, if_neg h1, if_neg h2, if_neg h3]
    unfold D1_Five_Point_Stencil
    have hi2 : 2 ≤ i := by omega
    have hi3 : i + 2 < n := by omega
    rw [sampleQ_droptake A B C (i - 2) 0 (by norm_num) (by omega),
        sampleQ_droptake A B C (i - 2) 1 (by norm_num) (by omega),
        sampleQ_droptake A B C (i - 2) 3 (by norm_num) (by omega),
        sampleQ_droptake A B C (i - 2) 4 (by norm_num) (by omega)]
    have e0 : i - 2 + 0 = i - 2 := by omega
    have e1 : i - 2 + 1 = i - 1 := by omega
    have e3 : i - 2 + 3 = i + 1 := by omega
    have e4 : i - 2 + 4 = i + 2 := by omega
    rw [e0, e1, e3, e4,
        Nat.cast_sub (by omega : 2 ≤ i), Nat.cast_sub (by omega : 1 ≤ i)]
    push_cast
    ring

/-- On a uniformly sampled quadratic with at least five samples, every
branch of the second-derivative dispatch returns the same constant
`24·C / (12·h²)` (i.e. `2·C/h²`): the five-point second-derivative
stencils are exact on quadratics at interior and edge positions alike. -/
theorem D2_row_sampleQ (A B C h : ℚ) {n : Nat} (hn : 5 ≤ n) :
    D2_row (sampleQ A B C n) h
      = (List.range n).map (fun _ : Nat => 24 * C / (12 * h ^ 2)) := by
  unfold D2_row
  simp only [sampleQ_length]
  refine List.map_congr_left ?_
  intro i hi
  rw [List.mem_range] at hi
  rcases eq_or_ne i 0 with h0 | h0
  · subst h0
    rw [if_pos rfl]
    unfold D2_Five_Point_Stencil_Forward
    rw [sampleQ_take5 A B C hn 0 (by norm_num), sampleQ_take5 A B C hn 1 (by norm_num),
        sampleQ_take5 A B C hn 2 (by norm_num), sampleQ_take5 A B C hn 3 (by norm_num),
        sampleQ_take5 A B C hn 4 (by norm_num)]
    push_cast
    ring
  rcases eq_or_ne i 1 with h1 | h1
  · subst h1
    rw [if_neg h0, if_pos rfl]
    unfold D2_Five_Point_Stencil_Assymmetric_F
    rw [sampleQ_take5 A B C hn 0 (by norm_num), sampleQ_take5 A B C hn 1 (by norm_num),
        sampleQ_take5 A B C hn 2 (by norm_num), sampleQ_take5 A B C hn 3 (by norm_num),
        sampleQ_take5 A B C hn 4 (by norm_num)]
    push_cast
    ring
  rcases eq_or_ne i (n - 2) with h2 | h2
  · subst h2
    rw [if_neg h0, if_neg h1, if_pos rfl]
    unfold D2_Five_Point_Stencil_Assymmetric_B
    rw [sampleQ_drop A B C (n - 5) 0 (by omega), sampleQ_drop A B C (n - 5) 1 (by omega),
        sampleQ_drop A B C (n - 5) 2 (by omega), sampleQ_drop A B C (n - 5) 3 (by omega),
        sampleQ_drop A B C (n - 5) 4 (by omega)]
    have e0 : n - 5 + 0 = n - 5 := by omega
    have e1 : n - 5 + 1 = n - 4 := by omega
    have e2 : n - 5 + 2 = n - 3 := by omega
    have e3 : n - 5 + 3 = n - 2 := by omega
    have e4 : n - 5 + 4 = n - 1 := by omega
    rw [e0, e1, e2, e3, e4,
        Nat.cast_sub (by omega : 5 ≤ n), Nat.cast_sub (by omega : 4 ≤ n),
        Nat.cast_sub (by omega : 3 ≤ n), Nat.cast_sub (by omega : 2 ≤ n),
        Nat.cast_sub (by omega : 1 ≤ n)]
    push_cast
    ring
  rcases eq_or_ne i (n - 1) with h3 | h3
  · subst h3
    rw [if_neg h0, if_neg h1, if_neg h2, if_pos rfl]
    unfold D2_Five_Point_Stencil_Backward
    rw [sampleQ_drop A B C (n - 5) 0 (by omega), sampleQ_drop A B C (n - 5) 1 (by omega),
        sampleQ_drop A B C (n - 5) 2 (by omega), sampleQ_drop A B C (n - 5) 3 (by omega),
        sampleQ_drop A B C (n - 5) 4 (by omega)]
    have e0 : n - 5 + 0 = n - 5 := by omega
    have e1 : n - 5 + 1 = n - 4 := by omega
    have e2 : n - 5 + 2 = n - 3 := by omega
    have e3 : n - 5 + 3 = n - 2 := by omega
    have e4 : n - 5 + 4 = n - 1 := by omega
    rw [e0, e1, e2, e3, e4,
        Nat.cast_sub (by omega : 5 ≤ n), Nat.cast_sub (by omega : 4 ≤ n),
        Nat.cast_sub (by omega : 3 ≤ n), Nat.cast_sub (by omega : 2 ≤ n),
        Nat.cast_sub (by omega : 1 ≤ n)]
    push_cast
    ring
  · rw [if_neg h0, if_neg h1, if_neg h2, if_neg h3]
    unfold D2_Five_Point_Stencil
    have hi2 : 2 ≤ i := by omega
    have hi3 : i + 2 < n := by omega
    rw [sampleQ_droptake A B C (i - 2) 0 (by norm_num) (by omega),
        sampleQ_droptake A B C (i - 2) 1 (by norm_num) (by omega),
        sampleQ_droptake A B C (i - 2) 2 (by norm_num) (by omega),
        sampleQ_droptake A B C (i - 2) 3 (by norm_num) (by omega),
        sampleQ_droptake A B C (i - 2) 4 (by norm_num) (by omega)]
    have e0 : i - 2 + 0 = i - 2 := by omega
    have e1 : i - 2 + 1 = i - 1 := by omega
    have e2 : i - 2 + 2 = i := by omega
    have e3 : i - 2 + 3 = i + 1 := by omega
    have e4 : i - 2 + 4 = i + 2 := by omega
    rw [e0, e1, e2, e3, e4,
        Nat.cast_sub (by omega : 2 ≤ i), Nat.cast_sub (by omega : 1 ≤ i)]
    push_cast
    ring

/-! ### Call-level characterisation lemmas for the shared driver -/

theorem stencilDriver_one (row : List ℚ → ℚ → List ℚ) (v : List ℚ) (s : ℚ) (ax : Int)
    (hax : ax = -1 ∨ ax = 0) (h10 : 10 ≤ v.length) :
    stencilDriver row (.one v) s ax = .ok (.one (row v s)) := by
  rcases hax with h | h <;> subst h <;>
    · show (if v.length < 5 then (Except.error .insufficientData : Except DerivError NDArray)
            else if v.length < 10 then .error .lowSampleWarning
            else .ok (.one (row v s))) = .ok (.one (row v s))
      rw [if_neg (by omega), if_neg (by omega)]

theorem stencilDriver_two_last (row : List ℚ → ℚ → List ℚ) (m : List (List ℚ)) (s : ℚ)
    (h10 : 10 ≤ (m.headD []).length) :
    stencilDriver row (.two m) s (-1) = .ok (.two (m.map (fun r => row r s))) := by
  show (if (m.headD []).length < 5 then (Except.error .insufficientData : Except DerivError NDArray)
        else if (m.headD []).length < 10 then .error .lowSampleWarning
        else .ok (.two (m.map (fun r => row r s)))) = .ok (.two (m.map (fun r => row r s)))
  rw [if_neg (by omega), if_neg (by omega)]

/-- The length of the last dimension after the transpose: `0` when the rows
are empty, else the number of rows. -/
theorem transposeQ_headD_length (m : List (List ℚ)) :
    ((transposeQ m).headD []).length
      = if (m.headD []).length = 0 then 0 else m.length := by
  unfold transposeQ
  cases hc : (m.headD []).length with
  | zero => simp
  | succ k =>
      rw [List.range_succ_eq_map]
      simp

theorem stencilDriver_two_first (row : List ℚ → ℚ → List ℚ) (m : List (List ℚ)) (s : ℚ)
    (hc : (m.headD []).length ≠ 0) (h10 : 10 ≤ m.length) :
    stencilDriver row (.two m) s 0
      = .ok (.two (transposeQ ((transposeQ m).map (fun r => row r s)))) := by
  show (if ((transposeQ m).headD []).length < 5
          then (Except.error .insufficientData : Except DerivError NDArray)
        else if ((transposeQ m).headD []).length < 10 then .error .lowSampleWarning
        else .ok (.two (transposeQ ((transposeQ m).map (fun r => row r s)))))
      = .ok (.two (transposeQ ((transposeQ m).map (fun r => row r s))))
  rw [transposeQ_headD_length, if_neg (by rw [if_neg hc]; omega),
      if_neg (by rw [if_neg hc]; omega)]

theorem stencilDriver_one_insufficient (row : List ℚ → ℚ → List ℚ) (v : List ℚ) (s : ℚ)
    (ax : Int) (hax : ax = -1 ∨ ax = 0) (h5 : v.length < 5) :
    stencilDriver row (.one v) s ax = .error .insufficientData := by
  rcases hax with h | h <;> subst h <;>
    · show (if v.length < 5 then (Except.error .insufficientData : Except DerivError NDArray)
            else if v.length < 10 then .error .lowSampleWarning
            else .ok (.one (row v s))) = .error .insufficientData
      rw [if_pos (by omega)]

theorem stencilDriver_two_last_insufficient (row : List ℚ → ℚ → List ℚ) (m : List (List ℚ))
    (s : ℚ) (h5 : (m.headD []).length < 5) :
    stencilDriver row (.two m) s (-1) = .error .insufficientData := by
  show (if (m.headD []).length < 5 then (Except.error .insufficientData : Except DerivError NDArray)
        else if (m.headD []).length < 10 then .error .lowSampleWarning
        else .ok (.two (m.map (fun r => row r s)))) = .error .insufficientData
  rw [if_pos (by omega)]

theorem stencilDriver_two_first_insufficient (row : List ℚ → ℚ → List ℚ) (m : List (List ℚ))
    (s : ℚ) (h5 : m.length < 5) :
    stencilDriver row (.two m) s 0 = .error .insufficientData := by
  show (if ((transposeQ m).headD []).length < 5
          then (Except.error .insufficientData : Except DerivError NDArray)
        else if ((transposeQ m).headD []).length < 10 then .error .lowSampleWarning
        else .ok (.two (transposeQ ((transposeQ m).map (fun r => row r s)))))
      = .error .insufficientData
  rw [transposeQ_headD_length, if_pos (by split <;> omega)]

/-- The validation outcome of a call: `none` when an array is returned,
`some e` when the call raises `e`. -/
def statusOf (e : Except DerivError NDArray) : Option DerivError :=
  match e with
  | .ok _ => none
  | .error er => some er

/-- Whether a call raises, and which error it raises, never depends on the
step argument or on the stencil kernels applied: validation looks only at
the array and the axis. -/
theorem stencilDriver_statusOf (row₁ row₂ : List ℚ → ℚ → List ℚ) (data : NDArray)
    (s₁ s₂ : ℚ) (axis : Int) :
    statusOf (stencilDriver row₁ data s₁ axis)
      = statusOf (stencilDriver row₂ data s₂ axis) := by
  unfold stencilDriver
  cases hnorm : normAxis data.rank axis with
  | error e => rfl
  | ok ax =>
      simp only []
      by_cases h5 : (if data.rank = 2 ∧ ax = 0 then data.transposeND else data).lastDimLen < 5
      · simp only [if_pos h5]
      · simp only [if_neg h5]
        by_cases h10 :
            (if data.rank = 2 ∧ ax = 0 then data.transposeND else data).lastDimLen < 10
        · simp only [if_pos h10]
        · simp only [if_neg h10]
          rfl

/-- With `axis = 0` on rank-2 data the driver transposes, differentiates
along the last axis, and transposes back: it is the transpose of the
`axis = -1` run on the transposed input, error cases included. -/
theorem stencilDriver_transpose (row : List ℚ → ℚ → List ℚ) (m : List (List ℚ)) (s : ℚ) :
    stencilDriver row (.two m) s 0
      = Except.map NDArray.transposeND (stencilDriver row (.two (transposeQ m)) s (-1)) := by
  show (if ((transposeQ m).headD []).length < 5
          then (Except.error .insufficientData : Except DerivError NDArray)
        else if ((transposeQ m).headD []).length < 10 then .error .lowSampleWarning
        else .ok (.two (transposeQ ((transposeQ m).map (fun r => row r s)))))
      = Except.map NDArray.transposeND
          (if ((transposeQ m).headD []).length < 5
            then (Except.error .insufficientData : Except DerivError NDArray)
           else if ((transposeQ m).headD []).length < 10 then .error .lowSampleWarning
           else .ok (.two ((transposeQ m).map (fun r => row r s))))
  by_cases h5 : ((transposeQ m).headD []).length < 5
  · rw [if_pos h5, if_pos h5]
    rfl
  · rw [if_neg h5, if_neg h5]
    by_cases h10 : ((transposeQ m).headD []).length < 10
    · rw [if_pos h10, if_pos h10]
      rfl
    · rw [if_neg h10, if_neg h10]
      rfl

theorem getD_map_rows (f : List ℚ → List ℚ) (hf : f [] = []) (m : List (List ℚ)) (j : Nat) :
    (m.map f).getD j [] = f (m.getD j []) := by
  rw [List.getD_eq_getElem?_getD, List.getD_eq_getElem?_getD, List.getElem?_map]
  cases m[j]? with
  | none => exact hf.symm
  | some r => rfl

/-- Along the last axis, row `j` of the output of the driver depends only
on row `j` of the input (and on the common row length used by validation). -/
theorem stencilDriver_row_local (row : List ℚ → ℚ → List ℚ) (hnil : ∀ s, row [] s = [])
    (m₁ m₂ : List (List ℚ)) (s : ℚ) (j : Nat)
    (hc : (m₁.headD []).length = (m₂.headD []).length)
    (hr : m₁.getD j [] = m₂.getD j []) :
    Except.map (NDArray.row j) (stencilDriver row (.two m₁) s (-1))
      = Except.map (NDArray.row j) (stencilDriver row (.two m₂) s (-1)) := by
  show Except.map (NDArray.row j)
        (if (m₁.headD []).length < 5
          then (Except.error .insufficientData : Except DerivError NDArray)
         else if (m₁.headD []).length < 10 then .error .lowSampleWarning
         else .ok (.two (m₁.map (fun r => row r s))))
      = Except.map (NDArray.row j)
        (if (m₂.headD []).length < 5
          then (Except.error .insufficientData : Except DerivError NDArray)
         else if (m₂.headD []).length < 10 then .error .lowSampleWarning
         else .ok (.two (m₂.map (fun r => row r s))))
  rw [hc]
  by_cases h5 : (m₂.headD []).length < 5
  · rw [if_pos h5, if_pos h5]
  · rw [if_neg h5, if_neg h5]
    by_cases h10 : (m₂.headD []).length < 10
    · rw [if_pos h10, if_pos h10]
    · rw [if_neg h10, if_neg h10]
      show (Except.ok ((m₁.map (fun r => row r s)).getD j []) : Except DerivError (List ℚ))
          = .ok ((m₂.map (fun r => row r s)).getD j [])
      rw [getD_map_rows _ (hnil s), getD_map_rows _ (hnil s), hr]

/-! ### Shape bookkeeping for the returned arrays -/

theorem transposeQ_length (m : List (List ℚ)) :
    (transposeQ m).length = (m.headD []).length := by
  unfold transposeQ
  rw [List.length_map, List.length_range]

theorem headD_map_range (f : Nat → List ℚ) (c : Nat) (hc : c ≠ 0) :
    ((List.range c).map f).headD [] = f 0 := by
  cases c with
  | zero => exact absurd rfl hc
  | succ k =>
      rw [List.range_succ_eq_map]
      rfl

theorem headD_map_rows (f : List ℚ → List ℚ) (hf : f [] = []) (m : List (List ℚ)) :
    (m.map f).headD [] = f (m.headD []) := by
  cases m with
  | nil => exact hf.symm
  | cons r t => rfl

theorem D1_row_length (d : List ℚ) (h : ℚ) : (D1_row d h).length = d.length := by
  unfold D1_row
  rw [List.length_map, List.length_range]

theorem D2_row_length (d : List ℚ) (h : ℚ) : (D2_row d h).length = d.length := by
  unfold D2_row
  rw [List.length_map, List.length_range]

theorem row_nil (row : List ℚ → ℚ → List ℚ)
    (hlen : ∀ v s, (row v s).length = v.length) (s : ℚ) : row [] s = [] :=
  List.length_eq_zero.mp (hlen [] s)

/-- Whenever the driver returns an array, that array has exactly the shape
of the input, for rank 1 and rank 2 and for every accepted axis value. -/
theorem stencilDriver_shape (row : List ℚ → ℚ → List ℚ)
    (hlen : ∀ v s, (row v s).length = v.length)
    (data : NDArray) (s : ℚ) (axis : Int) (out : NDArray)
    (hok : stencilDriver row data s axis = .ok out) :
    out.shape = data.shape := by
  unfold stencilDriver at hok
  cases hax : normAxis data.rank axis with
  | error e =>
      rw [hax] at hok
      exact Except.noConfusion hok
  | ok ax =>
      rw [hax] at hok
      cases data with
      | one v =>
          have hrot : ¬((NDArray.one v).rank = 2 ∧ ax = 0) := by
            rintro ⟨h, -⟩
            exact absurd h (by decide : ¬(1 : Nat) = 2)
          simp only [if_neg hrot, NDArray.lastDimLen] at hok
          by_cases h5 : v.length < 5
          · rw [if_pos h5] at hok
            exact Except.noConfusion hok
          by_cases h10 : v.length < 10
          · rw [if_neg h5, if_pos h10] at hok
            exact Except.noConfusion hok
          rw [if_neg h5, if_neg h10] at hok
          cases hok
          show [(row v s).length] = [v.length]
          rw [hlen]
      | two m =>
          by_cases hrot : (NDArray.two m).rank = 2 ∧ ax = 0
          · simp only [if_pos hrot, NDArray.transposeND, NDArray.lastDimLen] at hok
            by_cases h5 : ((transposeQ m).headD []).length < 5
            · rw [if_pos h5] at hok
              exact Except.noConfusion hok
            by_cases h10 : ((transposeQ m).headD []).length < 10
            · rw [if_neg h5, if_pos h10] at hok
              exact Except.noConfusion hok
            rw [if_neg h5, if_neg h10] at hok
            cases hok
            -- the transposed last dimension is nonzero, hence the input has
            -- nonempty rows and at least 5 of them
            rw [transposeQ_headD_length] at h5
            have hc : (m.headD []).length ≠ 0 := by
              intro h
              rw [if_pos h] at h5
              omega
            rw [if_neg hc] at h5
            have hm5 : 5 ≤ m.length := by omega
            show [(transposeQ ((transposeQ m).map (fun r => row r s))).length,
                  ((transposeQ ((transposeQ m).map (fun r => row r s))).headD []).length]
                = [m.length, (m.headD []).length]
            have ht0 : (transposeQ m).headD [] = m.map (fun r => r.getD 0 0) := by
              unfold transposeQ
              exact headD_map_range _ _ hc
            have hhead : (((transposeQ m).map (fun r => row r s)).headD []).length
                = m.length := by
              rw [headD_map_rows _ (row_nil row hlen s), hlen, ht0, List.length_map]
            have hheadnz : (((transposeQ m).map (fun r => row r s)).headD []).length ≠ 0 := by
              rw [hhead]
              omega
            rw [transposeQ_length, hhead, transposeQ_headD_length, if_neg hheadnz,
                List.length_map, transposeQ_length]
          · simp only [if_neg hrot, NDArray.lastDimLen] at hok
            by_cases h5 : (m.headD []).length < 5
            · rw [if_pos h5] at hok
              exact Except.noConfusion hok
            by_cases h10 : (m.headD []).length < 10
            · rw [if_neg h5, if_pos h10] at hok
              exact Except.noConfusion hok
            rw [if_neg h5, if_neg h10] at hok
            cases hok
            show [(m.map (fun r => row r s)).length,
                  ((m.map (fun r => row r s)).headD []).length]
                = [m.length, (m.headD []).length]
            rw [List.length_map, headD_map_rows _ (row_nil row hlen s), hlen]

/-! ### Uniformly sampled linear and quadratic functions -/

/-- The values of `f(x) = a + b·x` at the points `x₀ + k·h`, `k = 0..n-1`. -/
def linSample (a b x0 h : ℚ) (n : Nat) : List ℚ :=
  (List.range n).map (fun k : Nat => a + b * (x0 + (k : ℚ) * h))

/-- The values of `f(x) = a + b·x + c·x²` at the points `x₀ + k·h`. -/
def quadSample (a b c x0 h : ℚ) (n : Nat) : List ℚ :=
  (List.range n).map
    (fun k : Nat => a + b * (x0 + (k : ℚ) * h) + c * (x0 + (k : ℚ) * h) ^ 2)

theorem linSample_eq_sampleQ (a b x0 h : ℚ) (n : Nat) :
    linSample a b x0 h n = sampleQ (a + b * x0) (b * h) 0 n := by
  unfold linSample sampleQ
  refine List.map_congr_left ?_
  intro k hk
  ring

theorem quadSample_eq_sampleQ (a b c x0 h : ℚ) (n : Nat) :
    quadSample a b c x0 h n
      = sampleQ (a + b * x0 + c * x0 ^ 2) ((b + 2 * c * x0) * h) (c * h ^ 2) n := by
  unfold quadSample sampleQ
  refine List.map_congr_left ?_
  intro k hk
  ring

theorem map_const_eq_replicate (n : Nat) (b : ℚ) :
    (List.range n).map (fun _ : Nat => b) = List.replicate n b := by
  refine List.eq_replicate_iff.mpr ⟨?_, ?_⟩
  · rw [List.length_map, List.length_range]
  · intro x hx
    rcases List.mem_map.mp hx with ⟨k, -, rfl⟩
    rfl

/-- `D1_5` on a sampled linear function with at least 10 points returns the
constant slope everywhere. -/
theorem D1_5_linSample (a b x0 h : ℚ) (n : Nat) (hn : 10 ≤ n) (hh : h ≠ 0) :
    D1_5 (.one (linSample a b x0 h n)) h (-1) = .ok (.one (List.replicate n b)) := by
  show stencilDriver D1_row (.one (linSample a b x0 h n)) h (-1) = _
  rw [linSample_eq_sampleQ,
      stencilDriver_one D1_row _ _ _ (Or.inl rfl) (by rw [sampleQ_length]; omega),
      D1_row_sampleQ _ _ _ _ (by omega)]
  rw [List.map_congr_left
        (fun (k : Nat) _ => by field_simp; ring :
          ∀ k ∈ List.range n,
            (b * h + 2 * 0 * (k : ℚ)) * 12 / (12 * h) = (fun _ : Nat => b) k),
      map_const_eq_replicate]

/-- `D2_5` on a sampled linear function with at least 10 points returns zero
everywhere. -/
theorem D2_5_linSample (a b x0 h : ℚ) (n : Nat) (hn : 10 ≤ n) :
    D2_5 (.one (linSample a b x0 h n)) h (-1) = .ok (.one (List.replicate n 0)) := by
  show stencilDriver D2_row (.one (linSample a b x0 h n)) h (-1) = _
  rw [linSample_eq_sampleQ,
      stencilDriver_one D2_row _ _ _ (Or.inl rfl) (by rw [sampleQ_length]; omega),
      D2_row_sampleQ _ _ _ _ (by omega)]
  rw [List.map_congr_left
        (fun (k : Nat) _ => by norm_num :
          ∀ k ∈ List.range n, 24 * 0 / (12 * h ^ 2) = (fun _ : Nat => (0 : ℚ)) k),
      map_const_eq_replicate]

/-- `D2_5` on a sampled quadratic with at least 10 points returns the
constant second derivative `2c` everywhere. -/
theorem D2_5_quadSample (a b c x0 h : ℚ) (n : Nat) (hn : 10 ≤ n) (hh : h ≠ 0) :
    D2_5 (.one (quadSample a b c x0 h n)) h (-1)
      = .ok (.one (List.replicate n (2 * c))) := by
  show stencilDriver D2_row (.one (quadSample a b c x0 h n)) h (-1) = _
  rw [quadSample_eq_sampleQ,
      stencilDriver_one D2_row _ _ _ (Or.inl rfl) (by rw [sampleQ_length]; omega),
      D2_row_sampleQ _ _ _ _ (by omega)]
  rw [List.map_congr_left
        (fun (k : Nat) _ => by field_simp; ring :
          ∀ k ∈ List.range n,
            24 * (c * h ^ 2) / (12 * h ^ 2) = (fun _ : Nat => 2 * c) k),
      map_const_eq_replicate]

/-- `D1_5` on a sampled quadratic with at least 10 points returns the exact
first derivative `b + 2c·x` at every sample point `x = x₀ + k·h`. -/
theorem D1_5_quadSample (a b c x0 h : ℚ) (n : Nat) (hn : 10 ≤ n) (hh : h ≠ 0) :
    D1_5 (.one (quadSample a b c x0 h n)) h (-1)
      = .ok (.one ((List.range n).map
          (fun k : Nat => b + 2 * c * (x0 + (k : ℚ) * h)))) := by
  show stencilDriver D1_row (.one (quadSample a b c x0 h n)) h (-1) = _
  rw [quadSample_eq_sampleQ,
      stencilDriver_one D1_row _ _ _ (Or.inl rfl) (by rw [sampleQ_length]; omega),
      D1_row_sampleQ _ _ _ _ (by omega)]
  rw [List.map_congr_left
        (fun (k : Nat) _ => by field_simp; ring :
          ∀ k ∈ List.range n,
            ((b + 2 * c * x0) * h + 2 * (c * h ^ 2) * (k : ℚ)) * 12 / (12 * h)
              = b + 2 * c * (x0 + (k : ℚ) * h))]

/-! ### The claims -/

/-- Claim C1: the spec says that 5-9 samples give a non-fatal low-sample
advisory alongside a fully computed result.  The code instead executes
`raise Warning(...)`, which aborts the call: a 7-sample call returns no
array at all, for both derivative orders — the raised warning is the only
outcome. -/
theorem claim_C1_low_sample_raise :
    D1_5 (.one [0,1,2,3,4,5,6]) 1 (-1) = .error .lowSampleWarning
  ∧ D2_5 (.one [0,1,2,3,4,5,6]) 1 (-1) = .error .lowSampleWarning :=
  ⟨by decide, by decide⟩

/-- Claim C2: the spec says every axis in `{-1, 0, 1}` passes validation on
2-D input.  In the code, `axis = 1` on 2-D data falls through the whole
`if/elif` chain into the final `else` and raises the invalid-axis error —
even though the raised message itself names 1 as a permitted value — while
the equivalent default `axis = -1` on the same array succeeds. -/
theorem claim_C2_axis1_rejected_on_2d :
    D1_5 (.two [[0,1,2,3,4,5,6,7,8,9],[9,8,7,6,5,4,3,2,1,0]]) 1 1 = .error .invalidAxis
  ∧ D2_5 (.two [[0,1,2,3,4,5,6,7,8,9],[9,8,7,6,5,4,3,2,1,0]]) 1 1 = .error .invalidAxis
  ∧ statusOf (D1_5 (.two [[0,1,2,3,4,5,6,7,8,9],[9,8,7,6,5,4,3,2,1,0]]) 1 (-1)) = none
  ∧ statusOf (D2_5 (.two [[0,1,2,3,4,5,6,7,8,9],[9,8,7,6,5,4,3,2,1,0]]) 1 (-1)) = none :=
  ⟨by decide, by decide, by decide, by decide⟩

/-- Claim C3 (counterexample): a linear sequence with 7 samples (slope 3)
has `n ≥ 5` as the claim requires, yet `D1_5` raises the low-sample
warning instead of returning the slope at every index. -/
theorem claim_C3_counterexample :
    D1_5 (.one [2,5,8,11,14,17,20]) 1 (-1) = .error .lowSampleWarning
  ∧ D1_5 (.one [2,5,8,11,14,17,20]) 1 (-1) ≠ .ok (.one (List.replicate 7 3)) :=
  ⟨by decide, by decide⟩

/-- Claim C3 (amended: `n ≥ 10` instead of `n ≥ 5`, because the code aborts
with the raised warning for 5-9 samples): on a uniformly sampled linear
function `f(x) = a + b·x` with any nonzero step and at least 10 samples,
`D1_5` returns the slope `b` at every output index and `D2_5` returns `0`
at every output index, exactly. -/
theorem claim_C3_linear_exact (a b x0 h : ℚ) (n : Nat) (hn : 10 ≤ n) (hh : h ≠ 0) :
    D1_5 (.one (linSample a b x0 h n)) h (-1) = .ok (.one (List.replicate n b))
  ∧ D2_5 (.one (linSample a b x0 h n)) h (-1) = .ok (.one (List.replicate n 0)) :=
  ⟨D1_5_linSample a b x0 h n hn hh, D2_5_linSample a b x0 h n hn⟩

/-- Claim C3 (witness): the spec's concrete instance — `[0..9]` with step 1
gives all ones for the first derivative (and all zeros for the second). -/
theorem claim_C3_witness :
    D1_5 (.one [0,1,2,3,4,5,6,7,8,9]) 1 (-1) = .ok (.one [1,1,1,1,1,1,1,1,1,1])
  ∧ D2_5 (.one [0,1,2,3,4,5,6,7,8,9]) 1 (-1) = .ok (.one [0,0,0,0,0,0,0,0,0,0]) := by
  have h := claim_C3_linear_exact 0 1 0 1 10 (by norm_num) (by norm_num)
  have hdata : linSample 0 1 0 1 10 = [0,1,2,3,4,5,6,7,8,9] := by
    unfold linSample
    rw [(by decide : List.range 10 = [0,1,2,3,4,5,6,7,8,9])]
    norm_num
  rw [hdata] at h
  exact ⟨h.1, h.2⟩

/-- Claim C4 (counterexample): a quadratic sequence (`x²`, so `2c = 2`)
with 7 samples has `n ≥ 5` as the claim requires, yet `D2_5` raises the
low-sample warning instead of returning `2` at every index. -/
theorem claim_C4_counterexample :
    D2_5 (.one [0,1,4,9,16,25,36]) 1 (-1) = .error .lowSampleWarning
  ∧ D2_5 (.one [0,1,4,9,16,25,36]) 1 (-1) ≠ .ok (.one (List.replicate 7 2)) :=
  ⟨by decide, by decide⟩

/-- Claim C4 (amended: `n ≥ 10` instead of `n ≥ 5`, because the code aborts
with the raised warning for 5-9 samples): on a uniformly sampled quadratic
`f(x) = a + b·x + c·x²` with any nonzero step and at least 10 samples,
`D2_5` returns the constant `2c` at every output index and `D1_5` returns
`b + 2c·x` at each sample point `x = x₀ + k·h`, exactly — at the interior
and at all four edge positions alike. -/
theorem claim_C4_quadratic_exact (a b c x0 h : ℚ) (n : Nat) (hn : 10 ≤ n) (hh : h ≠ 0) :
    D2_5 (.one (quadSample a b c x0 h n)) h (-1) = .ok (.one (List.replicate n (2 * c)))
  ∧ D1_5 (.one (quadSample a b c x0 h n)) h (-1)
      = .ok (.one ((List.range n).map (fun k : Nat => b + 2 * c * (x0 + (k : ℚ) * h)))) :=
  ⟨D2_5_quadSample a b c x0 h n hn hh, D1_5_quadSample a b c x0 h n hn hh⟩

/-- Claim C4 (witness): `x²` sampled at `0..9` with step 1 — the second
derivative is the constant 2 and the first derivative is `2x`. -/
theorem claim_C4_witness :
    D2_5 (.one [0,1,4,9,16,25,36,49,64,81]) 1 (-1) = .ok (.one [2,2,2,2,2,2,2,2,2,2])
  ∧ D1_5 (.one [0,1,4,9,16,25,36,49,64,81]) 1 (-1)
      = .ok (.one [0,2,4,6,8,10,12,14,16,18]) := by
  have h := claim_C4_quadratic_exact 0 0 1 0 1 10 (by norm_num) (by norm_num)
  have hdata : quadSample 0 0 1 0 1 10 = [0,1,4,9,16,25,36,49,64,81] := by
    unfold quadSample
    rw [(by decide : List.range 10 = [0,1,2,3,4,5,6,7,8,9])]
    norm_num
  have hout : (List.range 10).map (fun k : Nat => (0 : ℚ) + 2 * 1 * (0 + (k : ℚ) * 1))
      = [0,2,4,6,8,10,12,14,16,18] := by
    rw [(by decide : List.range 10 = [0,1,2,3,4,5,6,7,8,9])]
    norm_num
  have e0 : (2 : ℚ) * 1 = 2 := by norm_num
  rw [hdata, hout, e0] at h
  exact ⟨h.1, h.2⟩

/-- Claim C5: whenever `D1_5` or `D2_5` returns an array, that array has
exactly the shape of the input — for rank-1 and rank-2 inputs and for every
axis value, the `axis = 0` transpose being undone before returning. -/
theorem claim_C5_shape_preserved (data : NDArray) (s : ℚ) (axis : Int) (out : NDArray) :
    (D1_5 data s axis = .ok out → out.shape = data.shape)
  ∧ (D2_5 data s axis = .ok out → out.shape = data.shape) :=
  ⟨stencilDriver_shape D1_row D1_row_length data s axis out,
   stencilDriver_shape D2_row D2_row_length data s axis out⟩

/-- Claim C5 (witness): a 1-D call along the default axis and a 2-D call
along the first axis, both evaluated on concrete inputs. -/
theorem claim_C5_witness :
    (NDArray.one (D1_row [0,1,2,3,4,5,6,7,8,9] 1)).shape
      = (NDArray.one [0,1,2,3,4,5,6,7,8,9]).shape
  ∧ (NDArray.two (transposeQ ((transposeQ [[1],[2],[3],[4],[5],[6],[7],[8],[9],[10]]).map
        (fun r => D2_row r 1)))).shape
      = (NDArray.two [[1],[2],[3],[4],[5],[6],[7],[8],[9],[10]]).shape :=
  ⟨(claim_C5_shape_preserved (.one [0,1,2,3,4,5,6,7,8,9]) 1 (-1)
      (.one (D1_row [0,1,2,3,4,5,6,7,8,9] 1))).1 (by rfl),
   (claim_C5_shape_preserved (.two [[1],[2],[3],[4],[5],[6],[7],[8],[9],[10]]) 1 0
      (.two (transposeQ ((transposeQ [[1],[2],[3],[4],[5],[6],[7],[8],[9],[10]]).map
        (fun r => D2_row r 1))))).2 (by rfl)⟩

/-- Claim C6: fewer than 5 samples along the differentiation axis is a hard
`InsufficientData` error for both functions, raised by the validation
prologue; the `Except.error` result carries no array, so no partial result
is produced.  Three cases: rank 1 with either accepted axis, rank 2 along
the last axis (short rows), rank 2 along the first axis (fewer than 5
rows). -/
theorem claim_C6_insufficient_data :
    (∀ (v : List ℚ) (s : ℚ) (ax : Int), ax = -1 ∨ ax = 0 → v.length < 5 →
      D1_5 (.one v) s ax = .error .insufficientData
        ∧ D2_5 (.one v) s ax = .error .insufficientData)
  ∧ (∀ (m : List (List ℚ)) (s : ℚ), (m.headD []).length < 5 →
      D1_5 (.two m) s (-1) = .error .insufficientData
        ∧ D2_5 (.two m) s (-1) = .error .insufficientData)
  ∧ (∀ (m : List (List ℚ)) (s : ℚ), m.length < 5 →
      D1_5 (.two m) s 0 = .error .insufficientData
        ∧ D2_5 (.two m) s 0 = .error .insufficientData) :=
  ⟨fun v s ax hax h5 =>
      ⟨stencilDriver_one_insufficient D1_row v s ax hax h5,
       stencilDriver_one_insufficient D2_row v s ax hax h5⟩,
   fun m s h5 =>
      ⟨stencilDriver_two_last_insufficient D1_row m s h5,
       stencilDriver_two_last_insufficient D2_row m s h5⟩,
   fun m s h5 =>
      ⟨stencilDriver_two_first_insufficient D1_row m s h5,
       stencilDriver_two_first_insufficient D2_row m s h5⟩⟩

/-- Claim C6 (witness): concrete short inputs for each of the three cases. -/
theorem claim_C6_witness :
    D1_5 (.one [1,2,3]) 1 (-1) = .error .insufficientData
  ∧ D2_5 (.one [1,2,3]) 1 0 = .error .insufficientData
  ∧ D1_5 (.two [[1,2],[3,4]]) 1 (-1) = .error .insufficientData
  ∧ D2_5 (.two [[0,1,2,3,4,5,6,7,8,9],[9,8,7,6,5,4,3,2,1,0]]) 1 0
      = .error .insufficientData :=
  ⟨(claim_C6_insufficient_data.1 [1,2,3] 1 (-1) (Or.inl rfl) (by norm_num)).1,
   (claim_C6_insufficient_data.1 [1,2,3] 1 0 (Or.inr rfl) (by norm_num)).2,
   (claim_C6_insufficient_data.2.1 [[1,2],[3,4]] 1 (by norm_num)).1,
   (claim_C6_insufficient_data.2.2 [[0,1,2,3,4,5,6,7,8,9],[9,8,7,6,5,4,3,2,1,0]] 1
      (by norm_num)).2⟩

/-- Claim C7 (counterexample): on a 1-D input `axis = 0` does not raise —
both derivative calls return an array (`statusOf ... = none` means no
error of any kind, in particular no `InvalidAxis`). -/
theorem claim_C7_counterexample :
    statusOf (D1_5 (.one [0,1,2,3,4,5,6,7,8,9]) 1 0) = none
  ∧ statusOf (D2_5 (.one [0,1,2,3,4,5,6,7,8,9]) 1 0) = none :=
  ⟨by decide, by decide⟩

/-- Claim C7 (amended): on 1-D input the code accepts `axis = 0` (the
`elif axis==0: pass` branch) and behaves exactly like the default
`axis = -1`; the axis value that fails with `InvalidAxis` on 1-D input is
`axis = 1`. -/
theorem claim_C7_axis_on_1d (v : List ℚ) (s : ℚ) :
    D1_5 (.one v) s 0 = D1_5 (.one v) s (-1)
  ∧ D2_5 (.one v) s 0 = D2_5 (.one v) s (-1)
  ∧ D1_5 (.one v) s 1 = .error .invalidAxis
  ∧ D2_5 (.one v) s 1 = .error .invalidAxis :=
  ⟨rfl, rfl, rfl, rfl⟩

/-- Claim C8: for every rank-2 input, differentiating along the first axis
yields exactly the transpose-consistent result of differentiating the
transposed array along the last axis — the returned array is the transpose
of the `axis = -1` result on the transposed input (and the two calls raise
identical errors when validation fails), for both derivative orders. -/
theorem claim_C8_transpose_consistency (m : List (List ℚ)) (s : ℚ) :
    D1_5 (.two m) s 0
        = Except.map NDArray.transposeND (D1_5 (.two (transposeQ m)) s (-1))
  ∧ D2_5 (.two m) s 0
        = Except.map NDArray.transposeND (D2_5 (.two (transposeQ m)) s (-1)) :=
  ⟨stencilDriver_transpose D1_row m s, stencilDriver_transpose D2_row m s⟩

/-- Claim C9: the step argument is never validated — whether a call raises
and which error it raises is identical for any two step values (zero and
negative included), and a call that is otherwise valid still returns a
computed array with `step = 0` or `step = -1`, entering the stencil
arithmetic exactly as for a positive step. -/
theorem claim_C9_step_unvalidated :
    (∀ (data : NDArray) (axis : Int) (s₁ s₂ : ℚ),
      statusOf (D1_5 data s₁ axis) = statusOf (D1_5 data s₂ axis)
        ∧ statusOf (D2_5 data s₁ axis) = statusOf (D2_5 data s₂ axis))
  ∧ statusOf (D1_5 (.one [0,1,2,3,4,5,6,7,8,9]) 0 (-1)) = none
  ∧ statusOf (D2_5 (.one [0,1,2,3,4,5,6,7,8,9]) 0 (-1)) = none
  ∧ statusOf (D1_5 (.one [0,1,2,3,4,5,6,7,8,9]) (-1) (-1)) = none
  ∧ statusOf (D2_5 (.one [0,1,2,3,4,5,6,7,8,9]) (-1) (-1)) = none :=
  ⟨fun data axis s₁ s₂ =>
      ⟨stencilDriver_statusOf D1_row D1_row data s₁ s₂ axis,
       stencilDriver_statusOf D2_row D2_row data s₁ s₂ axis⟩,
   by decide, by decide, by decide, by decide⟩

/-- Claim C10: along the last axis, row `j` of either derivative output
depends only on row `j` of the input: two 2-D inputs with the same row
length that agree on row `j` produce outputs that agree on row `j` (and
identical validation outcomes), so rows never influence each other. -/
theorem claim_C10_rows_independent (m₁ m₂ : List (List ℚ)) (s : ℚ) (j : Nat)
    (hc : (m₁.headD []).length = (m₂.headD []).length)
    (hr : m₁.getD j [] = m₂.getD j []) :
    Except.map (NDArray.row j) (D1_5 (.two m₁) s (-1))
        = Except.map (NDArray.row j) (D1_5 (.two m₂) s (-1))
  ∧ Except.map (NDArray.row j) (D2_5 (.two m₁) s (-1))
        = Except.map (NDArray.row j) (D2_5 (.two m₂) s (-1)) :=
  ⟨stencilDriver_row_local D1_row (fun _ => rfl) m₁ m₂ s j hc hr,
   stencilDriver_row_local D2_row (fun _ => rfl) m₁ m₂ s j hc hr⟩

/-- Claim C10 (witness): two concrete 2-D arrays sharing row 0 and
differing in row 1 — the outputs' rows 0 coincide. -/
theorem claim_C10_witness :
    Except.map (NDArray.row 0)
        (D1_5 (.two [[0,1,2,3,4,5,6,7,8,9],[0,1,2,3,4,5,6,7,8,9]]) 1 (-1))
      = Except.map (NDArray.row 0)
        (D1_5 (.two [[0,1,2,3,4,5,6,7,8,9],[9,8,7,6,5,4,3,2,1,0]]) 1 (-1))
  ∧ Except.map (NDArray.row 0)
        (D2_5 (.two [[0,1,2,3,4,5,6,7,8,9],[0,1,2,3,4,5,6,7,8,9]]) 1 (-1))
      = Except.map (NDArray.row 0)
        (D2_5 (.two [[0,1,2,3,4,5,6,7,8,9],[9,8,7,6,5,4,3,2,1,0]]) 1 (-1)) :=
  claim_C10_rows_independent [[0,1,2,3,4,5,6,7,8,9],[0,1,2,3,4,5,6,7,8,9]]
    [[0,1,2,3,4,5,6,7,8,9],[9,8,7,6,5,4,3,2,1,0]] 1 0 rfl rfl

end PyNumericBrad
